import Mathlib

/-!
Shallow embedding of the gameplay core of the rg3d-shooter repository
(src/weapon.rs, src/player.rs, src/main.rs).

Modelling conventions:
* `f32` scalars are embedded as exact rationals `ℚ` (an idealisation of the
  float arithmetic; all constants of the source are representable).
* Vector lengths (`norm`, `metric_distance`) involve a square root, which is
  irrational; lengths are therefore represented by their squares throughout
  (`normSq`, `distSq`).  Since `Real.sqrt` is strictly monotone on
  nonnegatives, every equality or order comparison of lengths in the source
  is equivalent to the same comparison of the squares; in particular the
  source's `metric_distance(..) < 0.001` is embedded as
  `distSq .. < 0.001^2 = 1/1000000`.
* Scene-graph and physics handles are opaque; colliders are identified by
  `Nat`.  Writes into the scene graph (the weapon model's local position,
  mesh/particle construction) are external-collaborator effects; the
  embedding records the spawn requests (impulse, impact effect, shot trail)
  as data in a `ShotOutcome`.
-/

/-- A 3-component vector over `ℚ`, embedding `Vector3<f32>`. -/
structure Vec3 where
  x : ℚ
  y : ℚ
  z : ℚ
deriving DecidableEq, Repr

instance : Zero Vec3 := ⟨⟨0, 0, 0⟩⟩

instance : Add Vec3 := ⟨fun a b => ⟨a.x + b.x, a.y + b.y, a.z + b.z⟩⟩

instance : Sub Vec3 := ⟨fun a b => ⟨a.x - b.x, a.y - b.y, a.z - b.z⟩⟩

/-- `Vector3::scale` of nalgebra/rg3d: componentwise scaling. -/
def Vec3.scale (v : Vec3) (c : ℚ) : Vec3 := ⟨v.x * c, v.y * c, v.z * c⟩

/-- rg3d `Vector3Ext::follow`: `self += (other - self) * fraction`
(exponential-follow interpolation used by `Weapon::update`). -/
def Vec3.follow (self other : Vec3) (fraction : ℚ) : Vec3 :=
  self + (other - self).scale fraction

/-- Squared euclidean norm; stands for `norm()` of the source (see header). -/
def Vec3.normSq (v : Vec3) : ℚ := v.x ^ 2 + v.y ^ 2 + v.z ^ 2

/-- Squared euclidean distance; stands for `metric_distance` (see header). -/
def Vec3.distSq (a b : Vec3) : ℚ := (a - b).normSq

/-- Exact-arithmetic characterisation of the source condition
`v.normalize() == Vector3::y()` (main.rs:157): `v / ‖v‖ = (0,1,0)` holds
exactly when `v` is a positive multiple of the +Y axis, i.e.
`v = (0, t, 0)` with `t > 0`. -/
def Vec3.normalizesToY (v : Vec3) : Bool :=
  decide (v.x = 0) && decide (v.z = 0) && decide (0 < v.y)

/-- State of `Weapon` (weapon.rs).  The node handles `model` / `shot_point`
and the scene-graph write of the recoil offset into the model's local
transform (weapon.rs:43-45) belong to the scene-graph collaborator and are
not part of the gameplay state. -/
structure Weapon where
  shot_timer : ℚ
  recoil_offset : Vec3
  recoil_target_offset : Vec3
deriving DecidableEq, Repr

/-- `Weapon::new` (weapon.rs:16-30): `shot_timer = 0.0`, both recoil vectors
default (zero). -/
def Weapon.init : Weapon := ⟨0, 0, 0⟩

/-- `Weapon::update` (weapon.rs:40-53):
`shot_timer = (shot_timer - dt).min(0.0)`;
`recoil_offset.follow(&recoil_target_offset, 0.5)`;
then, if `recoil_offset.metric_distance(&recoil_target_offset) < 0.001`,
`recoil_target_offset = Default::default()`.
The distance comparison is embedded on squares (see header). -/
def Weapon.update (w : Weapon) (dt : ℚ) : Weapon :=
  let t := min (w.shot_timer - dt) 0
  let off := w.recoil_offset.follow w.recoil_target_offset (1 / 2)
  if Vec3.distSq off w.recoil_target_offset < 1 / 1000000 then
    { shot_timer := t, recoil_offset := off, recoil_target_offset := 0 }
  else
    { shot_timer := t, recoil_offset := off,
      recoil_target_offset := w.recoil_target_offset }

/-- `Weapon::can_shoot` (weapon.rs:55-57): `shot_timer <= 0.0`. -/
def Weapon.can_shoot (w : Weapon) : Bool := decide (w.shot_timer ≤ 0)

/-- `Weapon::shoot` (weapon.rs:59-62): `shot_timer = 0.1`,
`recoil_target_offset = (0.0, 0.00625, -0.025)` (`= (0, 1/160, -1/40)`). -/
def Weapon.shoot (w : Weapon) : Weapon :=
  { shot_timer := 1 / 10, recoil_offset := w.recoil_offset,
    recoil_target_offset := ⟨0, 1 / 160, -1 / 40⟩ }

/-- `TIMESTEP = 1.0 / 60.0` (main.rs:49). -/
def TIMESTEP : ℚ := 1 / 60

/-- One execution of the fixed-step drain loop body (main.rs:302-311),
fuelled for termination: while `dt >= TIMESTEP`, do `dt -= TIMESTEP;
elapsed_time += TIMESTEP; game.update(&mut engine, dt)`.  Returns, in
order, the `dt` arguments passed to `game.update` (the simulation step). -/
def drainAux : Nat → ℚ → List ℚ
  | 0, _ => []
  | fuel + 1, dt =>
    if TIMESTEP ≤ dt then (dt - TIMESTEP) :: drainAux fuel (dt - TIMESTEP)
    else []

/-- The list of `dt` values handed to `game.update` when the accumulated
wall-clock delta at `MainEventsCleared` is `dt` (main.rs:301-311).  The
fuel `⌊dt / TIMESTEP⌋` is exactly the number of loop iterations. -/
def gameUpdateDts (dt : ℚ) : List ℚ :=
  drainAux (⌊dt / TIMESTEP⌋).toNat dt

/-- One entry of the ray-cast result (rg3d `Intersection`): struck collider,
world hit position, surface normal, and distance-of-impact `toi` along the
ray, by which the physics collaborator sorts. -/
structure Intersection where
  collider : Nat
  position : Vec3
  normal : Vec3
  toi : ℚ
deriving DecidableEq, Repr

/-- Ordering used by the physics collaborator when `sort_results: true`
(main.rs:126): ascending distance of impact. -/
def toiLE (a b : Intersection) : Prop := a.toi ≤ b.toi

instance : DecidableRel toiLE := fun a b => inferInstanceAs (Decidable (a.toi ≤ b.toi))

instance : IsTotal Intersection toiLE := ⟨fun a b => le_total a.toi b.toi⟩

instance : IsTrans Intersection toiLE := ⟨fun _ _ _ h h' => le_trans h h'⟩

/-- `cast_ray` with `sort_results: true` (main.rs:121-129): the collaborator
returns the world's intersections along the ray sorted from closest to
furthest. -/
def sortByToi (candidates : List Intersection) : List Intersection :=
  List.insertionSort toiLE candidates

/-- Orientation chosen for the impact effect (main.rs:157-161): either the
degenerate no-rotation quaternion `from_axis_angle(y_axis, 0.0)` or
`face_towards(normal, y)`.  The quaternion values themselves live in the
math collaborator; the embedding records which one was requested. -/
inductive EffectOrientation where
  | noRotation
  | faceTowards (dir up : Vec3)
deriving DecidableEq, Repr

/-- The branch on `intersection.normal.normalize() == Vector3::y()`
(main.rs:157-161). -/
def effectOrientation (normal : Vec3) : EffectOrientation :=
  if normal.normalizesToY then EffectOrientation.noRotation
  else EffectOrientation.faceTowards normal ⟨0, 1, 0⟩

/-- `apply_force_at_point(ray.dir.normalize().scale(10.0), intersection.position, true)`
(main.rs:151-155).  The force vector is `normalize(rayDir) * 10`; the
unnormalised ray direction is recorded (its normalisation is irrational). -/
structure Impulse where
  collider : Nat
  rayDir : Vec3
  point : Vec3
deriving DecidableEq, Repr

/-- A `create_bullet_impact` request (main.rs:162-167). -/
structure Impact where
  position : Vec3
  orientation : EffectOrientation
deriving DecidableEq, Repr

/-- A `create_shot_trail` request (main.rs:176, 180-220); the trail's length
(the local z scale) is recorded as its square (see header). -/
structure ShotTrail where
  origin : Vec3
  direction : Vec3
  lengthSq : ℚ
deriving DecidableEq, Repr

/-- Everything `Game::shoot_weapon` does: the weapon's new state and the
collaborator requests it issues. -/
structure ShotOutcome where
  weapon : Weapon
  impulses : List Impulse
  impacts : List Impact
  trails : List ShotTrail
deriving DecidableEq, Repr

/-- `Game::shoot_weapon` (main.rs:102-178).  `rayDir` is the already-scaled
`weapon_model.look_vector().scale(1000.0)`; `candidates` is the set of
intersections the physics world reports along the ray (in arbitrary order;
`cast_ray` sorts them).  The raycast's `max_len` is `ray.dir.norm()`,

represented by `rayDir.normSq`. -/
def shoot_weapon (w : Weapon) (playerCollider : Nat) (rayOrigin rayDir : Vec3)
    (candidates : List Intersection) : ShotOutcome :=
  if w.can_shoot then
    let w := w.shoot
    let intersections := sortByToi candidates
    match intersections.find? (fun i => i.collider != playerCollider) with
    | some intersection =>
      { weapon := w
        impulses := [⟨intersection.collider, rayDir, intersection.position⟩]
        impacts := [⟨intersection.position, effectOrientation intersection.normal⟩]
        trails := [⟨rayOrigin, rayDir, Vec3.distSq intersection.position rayOrigin⟩] }
    | none =>
      { weapon := w
        impulses := []
        impacts := []
        trails := [⟨rayOrigin, rayDir, rayDir.normSq⟩] }
  else
    { weapon := w, impulses := [], impacts := [], trails := [] }

/-- Buffered input state (player.rs `InputController`). -/
structure InputController where
  move_forward : Bool
  move_backward : Bool
  move_left : Bool
  move_right : Bool
  pitch : ℚ
  yaw : ℚ
  shoot : Bool
deriving DecidableEq, Repr

/-- The linear velocity written by `Player::update` (player.rs:129-142):
start from `(0, body.linvel().y, 0)`, then add/subtract the pivot's look
and side vectors according to the four movement booleans, and
`set_linvel` the result.  `look` and `side` are the scene-graph
collaborator's basis queries on the pivot. -/
def playerVelocity (c : InputController) (linvelY : ℚ) (look side : Vec3) : Vec3 :=
  let v : Vec3 := ⟨0, linvelY, 0⟩
  let v := if c.move_forward then v + look else v
  let v := if c.move_backward then v - look else v
  let v := if c.move_left then v + side else v
  let v := if c.move_right then v - side else v
  v

/-! ### Concrete inputs used to exercise the definitions -/

/-- The spec's raycast-ordering scenario: an intersection at distance 5
(collider 2). -/
def demoHitFar : Intersection := ⟨2, ⟨0, 0, 5⟩, ⟨0, 1, 0⟩, 5⟩

/-- The spec's raycast-ordering scenario: the player's own collider (7) at
distance 1. -/
def demoHitPlayer : Intersection := ⟨7, ⟨0, 0, 1⟩, ⟨0, 1, 0⟩, 1⟩

/-- The spec's raycast-ordering scenario: an intersection at distance 3
(collider 3). -/
def demoHitMid : Intersection := ⟨3, ⟨0, 0, 3⟩, ⟨0, 1, 0⟩, 3⟩

/-- Intersections at distances [5, 1, 3], the player's collider at 1. -/
def demoCandidates : List Intersection := [demoHitFar, demoHitPlayer, demoHitMid]

/-- A weapon whose recoil offset has settled exactly on the recoil target
set by `shoot()` (the state the easing converges to). -/
def recoilSettled : Weapon :=
  ⟨0, ⟨0, 1 / 160, -1 / 40⟩, ⟨0, 1 / 160, -1 / 40⟩⟩

/-- A hit on a downward-facing surface (ceiling): the normal is `(0,-1,0)`,
anti-parallel to world-up. -/
def ceilingHit : Intersection := ⟨3, ⟨0, 0, 2⟩, ⟨0, -1, 0⟩, 2⟩

/-! ### Componentwise lemmas for `Vec3` -/

@[simp] theorem Vec3.zero_x : (0 : Vec3).x = 0 := rfl

@[simp] theorem Vec3.zero_y : (0 : Vec3).y = 0 := rfl

@[simp] theorem Vec3.zero_z : (0 : Vec3).z = 0 := rfl

@[simp] theorem Vec3.add_x (a b : Vec3) : (a + b).x = a.x + b.x := rfl

@[simp] theorem Vec3.add_y (a b : Vec3) : (a + b).y = a.y + b.y := rfl

@[simp] theorem Vec3.add_z (a b : Vec3) : (a + b).z = a.z + b.z := rfl

@[simp] theorem Vec3.sub_x (a b : Vec3) : (a - b).x = a.x - b.x := rfl

@[simp] theorem Vec3.sub_y (a b : Vec3) : (a - b).y = a.y - b.y := rfl

@[simp] theorem Vec3.sub_z (a b : Vec3) : (a - b).z = a.z - b.z := rfl

@[simp] theorem Vec3.scale_x (v : Vec3) (c : ℚ) : (v.scale c).x = v.x * c := rfl

@[simp] theorem Vec3.scale_y (v : Vec3) (c : ℚ) : (v.scale c).y = v.y * c := rfl

@[simp] theorem Vec3.scale_z (v : Vec3) (c : ℚ) : (v.scale c).z = v.z * c := rfl

/-! ### C1, C2, C3: code bugs -/

/-- C1: the claim says `can_shoot()` becomes true again only after
`update(dt)` calls whose `dt` sum to at least the 0.1 s reload interval.
The code (weapon.rs:41) computes `shot_timer = (shot_timer - dt).min(0.0)`
— `.min` clamps the timer from above at 0, so a single `update` with
`dt = 1/60` (total 1/60 < 0.1) already makes `can_shoot()` true.  The
first conjunct (`shoot(); can_shoot() == false`) does hold. -/
theorem c1_cooldown_expires_after_single_update :
    Weapon.init.shoot.can_shoot = false
    ∧ (Weapon.init.shoot.update (1 / 60)).can_shoot = true
    ∧ (1 / 60 : ℚ) < 1 / 10 := by
  norm_num [Weapon.can_shoot, Weapon.update, Weapon.shoot, Weapon.init,
    Vec3.follow, Vec3.distSq, Vec3.normSq, min_def, apply_ite]

/-- C3: the claimed invariant `shot_timer >= 0` and
`can_shoot() ⇔ shot_timer == 0` fail on the code: from the initial state
(`shot_timer = 0`), `update(1.0)` yields `shot_timer = min(0 - 1, 0) = -1`
(weapon.rs:41 uses `.min(0.0)` instead of clamping below), which is
negative, and `can_shoot()` (`shot_timer <= 0.0`) is true while
`shot_timer ≠ 0`. -/
theorem c3_shot_timer_negative_and_can_shoot :
    (Weapon.init.update 1).shot_timer = -1
    ∧ (Weapon.init.update 1).can_shoot = true
    ∧ (Weapon.init.update 1).shot_timer ≠ 0 := by
  norm_num [Weapon.can_shoot, Weapon.update, Weapon.init,
    Vec3.follow, Vec3.distSq, Vec3.normSq, min_def, apply_ite]

/-- C2: for a wall-clock advance of exactly `k * TIMESTEP` the drain loop
does run exactly `k` simulation steps, but main.rs:307 passes the
already-decremented accumulator `dt` — not `TIMESTEP` — to `game.update`.
At `k = 2` the two steps receive `dt = TIMESTEP` and `dt = 0`, and
`0 ≠ TIMESTEP`, refuting "each receiving dt == T". -/
theorem c2_second_step_receives_zero_dt :
    gameUpdateDts (2 * TIMESTEP) = [TIMESTEP, 0]
    ∧ (gameUpdateDts (2 * TIMESTEP)).length = 2
    ∧ (0 : ℚ) ≠ TIMESTEP := by
  norm_num [gameUpdateDts, drainAux, TIMESTEP]

/-! ### Hit selection on a sorted list -/

/-- `find?` on a list sorted by ascending `toi` returns a minimiser of
`toi` among all entries satisfying the predicate. -/
theorem find_on_sorted_min {p : Intersection → Bool} :
    ∀ {l : List Intersection} {i : Intersection},
      l.Sorted toiLE → l.find? p = some i →
      ∀ j ∈ l, p j = true → i.toi ≤ j.toi := by
  intro l
  induction l with
  | nil => intro i _ hf; simp at hf
  | cons a t ih =>
    intro i hs hf j hj hpj
    rw [List.sorted_cons] at hs
    by_cases hpa : p a = true
    · rw [List.find?_cons_of_pos _ hpa] at hf
      injection hf with hf
      subst hf
      rcases List.mem_cons.mp hj with rfl | hjt
      · exact le_refl _
      · exact hs.1 j hjt
    · rw [List.find?_cons_of_neg _ hpa] at hf
      rcases List.mem_cons.mp hj with rfl | hjt
      · exact absurd hpj hpa
      · exact ih hs.2 hf j hjt hpj

/-- C4: if `can_shoot()` holds and the first intersection of the
distance-sorted list whose collider is not the player's is `i`, then the
impact effect is spawned at `i.position`, the trail's (squared) length is
the (squared) distance from the ray origin to `i.position`, `i` is not a
self-hit, and `i` is a closest qualifying intersection: its `toi` is ≤ the
`toi` of every non-player intersection the world reported. -/
theorem c4_hit_is_first_qualifying_and_closest (w : Weapon) (pc : Nat)
    (o d : Vec3) (cands : List Intersection) (i : Intersection)
    (hw : w.can_shoot = true)
    (hsel : (sortByToi cands).find? (fun j => j.collider != pc) = some i) :
    (shoot_weapon w pc o d cands).impacts
        = [⟨i.position, effectOrientation i.normal⟩]
    ∧ (shoot_weapon w pc o d cands).trails
        = [⟨o, d, Vec3.distSq i.position o⟩]
    ∧ i.collider ≠ pc
    ∧ ∀ j ∈ cands, j.collider ≠ pc → i.toi ≤ j.toi := by
  refine ⟨by simp [shoot_weapon, hw, hsel], by simp [shoot_weapon, hw, hsel], ?_, ?_⟩
  · have h := List.find?_some hsel
    simpa using h
  · intro j hj hjp
    have hj' : j ∈ sortByToi cands :=
      (List.perm_insertionSort toiLE cands).mem_iff.mpr hj
    exact find_on_sorted_min (List.sorted_insertionSort toiLE cands) hsel j hj'
      (by simpa using hjp)

/-- Witness for C4: the spec's scenario — intersections at distances
[5, 1, 3], the player's collider (7) at distance 1 — selects the
distance-3 intersection (collider 3), its squared distance from the ray
origin being 9 (length 3). -/
theorem c4_witness :
    Weapon.init.can_shoot = true
    ∧ (sortByToi demoCandidates).find? (fun j => j.collider != 7) = some demoHitMid
    ∧ (shoot_weapon Weapon.init 7 0 ⟨0, 0, 1000⟩ demoCandidates).impacts
        = [⟨demoHitMid.position, effectOrientation demoHitMid.normal⟩]
    ∧ (shoot_weapon Weapon.init 7 0 ⟨0, 0, 1000⟩ demoCandidates).trails
        = [⟨0, ⟨0, 0, 1000⟩, Vec3.distSq demoHitMid.position 0⟩]
    ∧ demoHitMid.collider ≠ 7
    ∧ Vec3.distSq demoHitMid.position 0 = 9 := by
  have hw : Weapon.init.can_shoot = true := by
    norm_num [Weapon.can_shoot, Weapon.init]
  have hsel : (sortByToi demoCandidates).find? (fun j => j.collider != 7)
      = some demoHitMid := by
    norm_num [sortByToi, demoCandidates, demoHitFar, demoHitPlayer, demoHitMid,
      toiLE, List.insertionSort, List.orderedInsert, List.find?]
    rfl
  have h := c4_hit_is_first_qualifying_and_closest Weapon.init 7 0 ⟨0, 0, 1000⟩
    demoCandidates demoHitMid hw hsel
  exact ⟨hw, hsel, h.1, h.2.1, h.2.2.1,
    by norm_num [demoHitMid, Vec3.distSq, Vec3.normSq]⟩

/-- C5: consuming a `ShootWeapon` message while `can_shoot()` is false is a
complete no-op: the weapon state is returned unchanged and no impulse, no
impact effect and no trail is requested (main.rs:105 gates the whole body).
-/
theorem c5_cooldown_gated_noop (w : Weapon) (pc : Nat) (o d : Vec3)
    (cands : List Intersection) (hw : w.can_shoot = false) :
    shoot_weapon w pc o d cands = ⟨w, [], [], []⟩ := by
  simp [shoot_weapon, hw]

/-- Witness for C5: a weapon that has just fired (`shot_timer = 0.1`)
cannot shoot, and the message is dropped with every piece of state intact.
-/
theorem c5_witness :
    Weapon.init.shoot.can_shoot = false
    ∧ shoot_weapon Weapon.init.shoot 7 0 ⟨0, 0, 1000⟩ demoCandidates
        = ⟨Weapon.init.shoot, [], [], []⟩ := by
  have hw : Weapon.init.shoot.can_shoot = false := by
    norm_num [Weapon.can_shoot, Weapon.shoot, Weapon.init]
  exact ⟨hw, c5_cooldown_gated_noop _ 7 0 ⟨0, 0, 1000⟩ demoCandidates hw⟩

/-- C8: when the sorted intersection list has no entry whose collider
differs from the player's (in particular when it is empty), the spawned
trail's (squared) length is the raycast's (squared) `max_len
= ray.dir.norm()` — the full ray length (main.rs:171-176). -/
theorem c8_miss_trail_full_ray (w : Weapon) (pc : Nat) (o d : Vec3)
    (cands : List Intersection) (hw : w.can_shoot = true)
    (hmiss : (sortByToi cands).find? (fun j => j.collider != pc) = none) :
    (shoot_weapon w pc o d cands).trails = [⟨o, d, d.normSq⟩] := by
  simp [shoot_weapon, hw, hmiss]

/-- Witness for C8: an empty intersection list yields one trail of squared
length `normSq (0,0,1000) = 1000000`, i.e. the full ray length 1000. -/
theorem c8_witness :
    Weapon.init.can_shoot = true
    ∧ (sortByToi []).find? (fun j => j.collider != 7) = none
    ∧ (shoot_weapon Weapon.init 7 0 ⟨0, 0, 1000⟩ []).trails
        = [⟨0, ⟨0, 0, 1000⟩, Vec3.normSq ⟨0, 0, 1000⟩⟩]
    ∧ Vec3.normSq ⟨0, 0, 1000⟩ = 1000000 := by
  have hw : Weapon.init.can_shoot = true := by
    norm_num [Weapon.can_shoot, Weapon.init]
  exact ⟨hw, rfl, c8_miss_trail_full_ray Weapon.init 7 0 ⟨0, 0, 1000⟩ [] hw rfl,
    by norm_num [Vec3.normSq]⟩

/-- C10: when the gate passes, exactly one shot trail is requested whether
the shot hits or misses, while the impulse and the impact-particle effect
are requested exactly on the hit branch. -/
theorem c10_exactly_one_trail_effects_on_hit_only (w : Weapon) (pc : Nat)
    (o d : Vec3) (cands : List Intersection) (hw : w.can_shoot = true) :
    (shoot_weapon w pc o d cands).trails.length = 1
    ∧ (∀ i, (sortByToi cands).find? (fun j => j.collider != pc) = some i →
        (shoot_weapon w pc o d cands).impacts.length = 1
        ∧ (shoot_weapon w pc o d cands).impulses.length = 1)
    ∧ ((sortByToi cands).find? (fun j => j.collider != pc) = none →
        (shoot_weapon w pc o d cands).impacts = []
        ∧ (shoot_weapon w pc o d cands).impulses = []) := by
  cases hfind : (sortByToi cands).find? (fun j => j.collider != pc) <;>
    simp [shoot_weapon, hw, hfind]

/-- Witness for C10: with a ready weapon and no world intersections, one
trail is spawned and no impact or impulse is. -/
theorem c10_witness :
    Weapon.init.can_shoot = true
    ∧ (shoot_weapon Weapon.init 7 0 ⟨0, 0, 1000⟩ []).trails.length = 1
    ∧ (shoot_weapon Weapon.init 7 0 ⟨0, 0, 1000⟩ []).impacts = []
    ∧ (shoot_weapon Weapon.init 7 0 ⟨0, 0, 1000⟩ []).impulses = [] := by
  have hw : Weapon.init.can_shoot = true := by
    norm_num [Weapon.can_shoot, Weapon.init]
  have h := c10_exactly_one_trail_effects_on_hit_only Weapon.init 7 0
    ⟨0, 0, 1000⟩ [] hw
  exact ⟨hw, h.1, (h.2.2 rfl).1, (h.2.2 rfl).2⟩

/-! ### C6: recoil easing -/

/-- C6 counterexample: the claim "distance(recoil_offset,
recoil_target_offset) after update ≤ the distance before update" fails at
a weapon whose offset has settled on the shoot-recoil target: `update`
first eases (distance stays 0), then — being within the 0.001 epsilon —
resets the target to zero (weapon.rs:46-52), after which the distance is
`‖(0, 1/160, -1/40)‖ > 0`, strictly larger than before the update. -/
theorem c6_distance_increases_on_target_reset :
    Vec3.distSq (recoilSettled.update (1 / 60)).recoil_offset
        (recoilSettled.update (1 / 60)).recoil_target_offset
      > Vec3.distSq recoilSettled.recoil_offset
          recoilSettled.recoil_target_offset := by
  norm_num [recoilSettled, Weapon.update, Vec3.follow, Vec3.distSq,
    Vec3.normSq, min_def, apply_ite]

/-- C6 amended: the easing step itself is contracting — the distance
between the eased offset and the (pre-reset) target is exactly a quarter
of (hence at most) the squared distance before the update — the updated
offset is exactly the eased offset, and once the eased offset is within
the 0.001 epsilon of the target, `update` resets the target to the zero
vector (so the offset subsequently eases toward zero).  The distance to
the freshly reset target may exceed the pre-update distance
(`c6_distance_increases_on_target_reset`). -/
theorem c6_easing_contracts_and_reset (w : Weapon) (dt : ℚ) :
    Vec3.distSq (w.recoil_offset.follow w.recoil_target_offset (1 / 2))
        w.recoil_target_offset
      = Vec3.distSq w.recoil_offset w.recoil_target_offset / 4
    ∧ Vec3.distSq (w.recoil_offset.follow w.recoil_target_offset (1 / 2))
        w.recoil_target_offset
      ≤ Vec3.distSq w.recoil_offset w.recoil_target_offset
    ∧ (w.update dt).recoil_offset
        = w.recoil_offset.follow w.recoil_target_offset (1 / 2)
    ∧ (Vec3.distSq (w.recoil_offset.follow w.recoil_target_offset (1 / 2))
          w.recoil_target_offset < 1 / 1000000
        → (w.update dt).recoil_target_offset = 0) := by
  have hq : Vec3.distSq (w.recoil_offset.follow w.recoil_target_offset (1 / 2))
      w.recoil_target_offset
      = Vec3.distSq w.recoil_offset w.recoil_target_offset / 4 := by
    simp only [Vec3.follow, Vec3.distSq, Vec3.normSq, Vec3.add_x, Vec3.add_y,
      Vec3.add_z, Vec3.sub_x, Vec3.sub_y, Vec3.sub_z, Vec3.scale_x,
      Vec3.scale_y, Vec3.scale_z]
    ring
  have hpos : 0 ≤ Vec3.distSq w.recoil_offset w.recoil_target_offset := by
    simp only [Vec3.distSq, Vec3.normSq]
    positivity
  refine ⟨hq, by rw [hq]; linarith, ?_, fun h => ?_⟩
  · simp [Weapon.update, apply_ite]
  · simp only [Weapon.update]
    rw [if_pos h]

/-- Witness for C6: at the settled-recoil weapon the eased distance is
below the epsilon and the target is reset to zero. -/
theorem c6_witness :
    Vec3.distSq (recoilSettled.recoil_offset.follow
        recoilSettled.recoil_target_offset (1 / 2))
        recoilSettled.recoil_target_offset < 1 / 1000000
    ∧ (recoilSettled.update (1 / 60)).recoil_target_offset = 0 := by
  have hlt : Vec3.distSq (recoilSettled.recoil_offset.follow
      recoilSettled.recoil_target_offset (1 / 2))
      recoilSettled.recoil_target_offset < 1 / 1000000 := by
    norm_num [recoilSettled, Vec3.follow, Vec3.distSq, Vec3.normSq]
  exact ⟨hlt, (c6_easing_contracts_and_reset recoilSettled (1 / 60)).2.2.2 hlt⟩

/-! ### C7: impact-effect orientation -/

/-- C7 counterexample: for a hit whose surface normal is `(0,-1,0)` —
parallel to world-up but pointing down — the code takes the
`face_towards` branch, not the degenerate/no-rotation branch: main.rs:157
compares the normalised normal against `Vector3::y()` (+Y) only. -/
theorem c7_downward_normal_not_degenerate :
    (shoot_weapon Weapon.init 7 0 ⟨0, 0, 1000⟩ [ceilingHit]).impacts
      = [⟨⟨0, 0, 2⟩, EffectOrientation.faceTowards ⟨0, -1, 0⟩ ⟨0, 1, 0⟩⟩]
    ∧ EffectOrientation.faceTowards ⟨0, -1, 0⟩ ⟨0, 1, 0⟩
        ≠ EffectOrientation.noRotation := by
  constructor
  · have hw : Weapon.init.can_shoot = true := by
      norm_num [Weapon.can_shoot, Weapon.init]
    have hsel : (sortByToi [ceilingHit]).find? (fun j => j.collider != 7)
        = some ceilingHit := rfl
    have hor : effectOrientation ⟨0, -1, 0⟩
        = EffectOrientation.faceTowards ⟨0, -1, 0⟩ ⟨0, 1, 0⟩ := by
      norm_num [effectOrientation, Vec3.normalizesToY]
    simpa [hor, ceilingHit] using
      (c4_hit_is_first_qualifying_and_closest Weapon.init 7 0 ⟨0, 0, 1000⟩
        [ceilingHit] ceilingHit hw hsel).1
  · simp

/-- C7 amended: the degenerate/no-rotation orientation is used exactly when
the normal is a positive multiple of +Y (the source compares the
normalised normal with `Vector3::y()`); every other normal — including
`(0,-t,0)`, anti-parallel to world-up — gets the
`face_towards(normal, y)` orientation. -/
theorem c7_orientation_branches (n : Vec3) (t : ℚ) (ht : 0 < t) :
    effectOrientation ⟨0, t, 0⟩ = EffectOrientation.noRotation
    ∧ effectOrientation ⟨0, -t, 0⟩
        = EffectOrientation.faceTowards ⟨0, -t, 0⟩ ⟨0, 1, 0⟩
    ∧ (n.normalizesToY = false
        → effectOrientation n = EffectOrientation.faceTowards n ⟨0, 1, 0⟩) := by
  have hnot : ¬(0 < -t) := by linarith
  exact ⟨by simp [effectOrientation, Vec3.normalizesToY, ht],
    by simp [effectOrientation, Vec3.normalizesToY, hnot],
    fun h => by simp [effectOrientation, h]⟩

/-- Witness for C7 (amended): at `t = 1` the +Y normal takes the degenerate
branch and the −Y normal the face-towards branch. -/
theorem c7_witness :
    (0 : ℚ) < 1
    ∧ effectOrientation ⟨0, 1, 0⟩ = EffectOrientation.noRotation
    ∧ effectOrientation ⟨0, -1, 0⟩
        = EffectOrientation.faceTowards ⟨0, -1, 0⟩ ⟨0, 1, 0⟩ := by
  have h := c7_orientation_branches ⟨1, 0, 0⟩ 1 (by norm_num)
  exact ⟨by norm_num, h.1, by simpa using h.2.1⟩

/-! ### C9: the vertical velocity component is preserved -/

/-- C9: `Player::update` builds the written velocity starting from
`(0, body.linvel().y, 0)` and adds/subtracts the pivot's look and side
vectors per the movement booleans (player.rs:129-142).  The pivot's
rotation is only ever a yaw about the world Y axis (player.rs:143-146 and
the identity initial transform), so the scene graph's look and side
vectors have zero vertical component; under that collaborator geometry the
written velocity's y component equals the y velocity read at the start of
the update, for every input state. -/
theorem c9_vertical_velocity_preserved (c : InputController) (linvelY : ℚ)
    (look side : Vec3) (hl : look.y = 0) (hs : side.y = 0) :
    (playerVelocity c linvelY look side).y = linvelY := by
  simp only [playerVelocity]
  cases c.move_forward <;> cases c.move_backward <;>
    cases c.move_left <;> cases c.move_right <;>
      simp [hl, hs]

/-- Witness for C9: all four movement keys held, yaw-basis vectors
`look = (0,0,1)`, `side = (1,0,0)`, initial vertical velocity 5: the
written velocity keeps y = 5. -/
theorem c9_witness :
    Vec3.y ⟨0, 0, 1⟩ = 0
    ∧ Vec3.y ⟨1, 0, 0⟩ = 0
    ∧ (playerVelocity ⟨true, true, true, true, 0, 0, true⟩ 5
        ⟨0, 0, 1⟩ ⟨1, 0, 0⟩).y = 5 :=
  ⟨rfl, rfl,
    c9_vertical_velocity_preserved ⟨true, true, true, true, 0, 0, true⟩ 5
      ⟨0, 0, 1⟩ ⟨1, 0, 0⟩ rfl rfl⟩
